import Mathlib

/-!
Verification of django-hookflow's workflow execution engine.

Shallow embedding of the core of `django_hookflow`:
  * `workflows/views.py` — webhook handler `_workflow_webhook_impl`, the
    cooperative execution-timeout guard `_execution_timeout`, the bounded
    publish retry loop `_publish_with_retry`, and `_acquire_workflow_lock`;
  * `circuit_breaker.py` — the `CircuitBreaker` state machine;
  * `shutdown.py` — `ShutdownManager.track_request_start`.

Python dicts whose keys are step ids are modelled as association lists in
insertion order; external collaborators (persistence reads, the QStash
publish call, the retry policy) are inputs to the embedded handler.
-/

namespace DjangoHookflow

/-! ### Python dict model (association lists, insertion order, unique keys) -/

/-- Lookup in a Python-dict-like association list: first binding wins. -/
def lookupD {V : Type} (d : List (String × V)) (k : String) : Option V :=
  (d.find? (fun p => p.1 == k)).map Prod.snd

/-- Python merge `{**a, **b}`: keys of `a` in order (with `b`'s value when the
key is also in `b`), followed by the keys of `b` not in `a`. -/
def pyDictMerge {V : Type} (a b : List (String × V)) : List (String × V) :=
  (a.map fun p => (p.1, ((lookupD b p.1).getD p.2)))
    ++ b.filter fun p => (lookupD a p.1).isNone

/-- The intersection `set(db.keys()) & set(payload.keys())` from the idempotency check in
`_workflow_webhook_impl` (views.py line 428), as the list of db keys that
also occur in the payload. -/
def duplicateSteps {V : Type} (db payload : List (String × V)) : List String :=
  (db.map Prod.fst).filter (fun k => (lookupD payload k).isSome)

/-! ### Execution-timeout guard (`_execution_timeout`, views.py lines 84-142)

The wrapped call either returns normally or raises; the guard's timer sets
a flag once `timeout_seconds` have elapsed (only scheduled when
`timeout_seconds > 0`). On normal exit the guard checks the flag and raises
`ExecutionTimeoutError`; an exception from the body propagates unchanged
(the flag check on line 133 is only reached on normal exit of the body). -/

/-- Fields carried by `ExecutionTimeoutError` (exceptions.py lines 31-41). -/
structure TimeoutErrorInfo where
  timeoutSeconds : Nat
  workflowId : String
  runId : String
deriving Repr, DecidableEq

/-- How the wrapped workflow call exits: normal return or a raised exception. -/
inductive ExecEnd (E R : Type) where
  | normal (r : R)
  | raised (e : E)
deriving Repr, DecidableEq

/-- How the guarded block exits: the body's value, the body's exception, or
`ExecutionTimeoutError` raised by the guard itself. -/
inductive GuardResult (E R : Type) where
  | ok (r : R)
  | timeoutError (info : TimeoutErrorInfo)
  | raised (e : E)
deriving Repr, DecidableEq

/-- The timer flag at body-exit time: set iff a timer was scheduled
(`timeout_seconds > 0`, views.py line 125) and the deadline elapsed before
the body exited. -/
def timedOutFlag (timeoutSeconds elapsed : Nat) : Bool :=
  decide (0 < timeoutSeconds) && decide (timeoutSeconds ≤ elapsed)

/-- The guard `_execution_timeout` as a function of the body's exit and the elapsed
time: `elapsed` is how long the body ran before exiting. -/
def executionTimeout {E R : Type} (timeoutSeconds : Nat) (workflowId runId : String)
    (elapsed : Nat) (body : ExecEnd E R) : GuardResult E R :=
  match body with
  | .raised e => .raised e
  | .normal r =>
    if timedOutFlag timeoutSeconds elapsed then
      .timeoutError ⟨timeoutSeconds, workflowId, runId⟩
    else
      .ok r

/-! ### Circuit breaker (`circuit_breaker.py`)

State and transitions of `CircuitBreaker`; settings reads become a config
record, `time.time()` becomes an explicit integer `now` argument. -/

/-- The enum `CircuitState` (circuit_breaker.py lines 18-23). -/
inductive CircuitState where
  | closed
  | opened
  | halfOpen
deriving Repr, DecidableEq

/-- Settings consulted by the breaker: `DJANGO_HOOKFLOW_CIRCUIT_BREAKER_*`
with defaults enabled=False, threshold=5, recovery_timeout=30,
half_open_requests=3. -/
structure CBConfig where
  enabled : Bool
  failureThreshold : Nat
  recoveryTimeout : Int
  halfOpenRequests : Nat
deriving Repr, DecidableEq

/-- The mutable fields set in `CircuitBreaker.__init__` (lines 78-82). -/
structure CBState where
  state : CircuitState
  failureCount : Nat
  successCount : Nat
  lastFailureTime : Option Int
  openedAt : Option Int
deriving Repr, DecidableEq

/-- Fresh breaker: CLOSED with zeroed counters. -/
def CBState.initial : CBState :=
  ⟨.closed, 0, 0, none, none⟩

/-- Transition check `_check_state_transition` (lines 129-145): an OPEN breaker whose
recovery timeout has elapsed becomes HALF_OPEN with `success_count = 0`. -/
def checkStateTransition (cfg : CBConfig) (now : Int) (s : CBState) : CBState :=
  match s.state, s.openedAt with
  | .opened, some t0 =>
    if cfg.recoveryTimeout ≤ now - t0 then
      { s with state := .halfOpen, successCount := 0 }
    else s
  | _, _ => s

/-- Transition `_transition_to_open` (lines 147-159). -/
def transitionToOpen (now : Int) (s : CBState) : CBState :=
  { s with state := .opened, openedAt := some now }

/-- Transition `_transition_to_closed` (lines 161-174). -/
def transitionToClosed (s : CBState) : CBState :=
  { s with state := .closed, failureCount := 0, successCount := 0, openedAt := none }

/-- Method `record_success` (lines 176-190): no-op when disabled; in HALF_OPEN,
bump the success counter and close once it reaches `half_open_requests`;
in CLOSED, clear the failure counter. -/
def recordSuccess (cfg : CBConfig) (s : CBState) : CBState :=
  if !cfg.enabled then s
  else
    match s.state with
    | .halfOpen =>
      let s₁ := { s with successCount := s.successCount + 1 }
      if cfg.halfOpenRequests ≤ s₁.successCount then transitionToClosed s₁ else s₁
    | .closed => if 0 < s.failureCount then { s with failureCount := 0 } else s
    | .opened => s

/-- Method `record_failure` (lines 192-220): no-op when disabled; stamps
`last_failure_time`; a HALF_OPEN failure reopens immediately; a CLOSED
failure bumps the counter and opens at the threshold. -/
def recordFailure (cfg : CBConfig) (now : Int) (s : CBState) : CBState :=
  if !cfg.enabled then s
  else
    let s₁ := { s with lastFailureTime := some now }
    match s₁.state with
    | .halfOpen => transitionToOpen now s₁
    | .closed =>
      let s₂ := { s₁ with failureCount := s₁.failureCount + 1 }
      if cfg.failureThreshold ≤ s₂.failureCount then transitionToOpen now s₂ else s₂
    | .opened => s₁

/-- Method `allow_request` (lines 222-234): when enabled, first run the
OPEN→HALF_OPEN timeout transition, then admit unless still OPEN. -/
def allowRequest (cfg : CBConfig) (now : Int) (s : CBState) : Bool × CBState :=
  if !cfg.enabled then (true, s)
  else
    let s₁ := checkStateTransition cfg now s
    (s₁.state ≠ .opened, s₁)

/-- Exit of `CircuitBreaker.call`: the wrapped function's value, the wrapped
function's exception (re-raised after `record_failure`), or a
`CircuitBreakerError` raised without invoking the function. -/
inductive CallOutcome (E R : Type) where
  | result (r : R)
  | fnRaised (e : E)
  | rejected (stateInError : CircuitState)
deriving Repr, DecidableEq

/-- Method `call` (lines 236-267): disabled → invoke directly with no bookkeeping;
otherwise consult `allow_request`, rejecting with `CircuitBreakerError`
(carrying the current state) when it refuses, and recording
success/failure of the invoked function otherwise. -/
def circuitCall {E R : Type} (cfg : CBConfig) (now : Int) (s : CBState)
    (fn : ExecEnd E R) : CallOutcome E R × CBState :=
  if !cfg.enabled then
    (match fn with
     | .normal r => (.result r, s)
     | .raised e => (.fnRaised e, s))
  else
    let (allowed, s₁) := allowRequest cfg now s
    if !allowed then (.rejected s₁.state, s₁)
    else
      match fn with
      | .normal r => (.result r, recordSuccess cfg s₁)
      | .raised e => (.fnRaised e, recordFailure cfg now s₁)

/-! ### Shutdown manager (`shutdown.py`) -/

/-- Dict insert/update `d[k] = v`: overwrite in place if the key exists,
else append. -/
def insertD {V : Type} (d : List (String × V)) (k : String) (v : V) : List (String × V) :=
  if (lookupD d k).isSome then
    d.map (fun p => if p.1 == k then (k, v) else p)
  else
    d ++ [(k, v)]

/-- Mutable fields of `ShutdownManager` the claims touch: the draining flag
and the in-flight map `run_id -> start_time` (shutdown.py lines 43-49). -/
structure ShutdownState where
  shuttingDown : Bool
  inFlight : List (String × Int)
deriving Repr, DecidableEq

/-- Method `track_request_start` (shutdown.py lines 89-116): pass-through when the
feature is disabled; reject without touching the in-flight map when already
shutting down; otherwise record the start time and admit. -/
def trackRequestStart (enabled : Bool) (now : Int) (runId : String)
    (s : ShutdownState) : Bool × ShutdownState :=
  if !enabled then (true, s)
  else if s.shuttingDown then (false, s)
  else (true, { s with inFlight := insertD s.inFlight runId now })

/-! ### Bounded publish retry (`_publish_with_retry`, views.py lines 145-217) -/

/-- Settings read `_get_max_publish_failures` (views.py lines 50-56): the setting when
present, else `DEFAULT_MAX_PUBLISH_FAILURES = 3`. -/
def getMaxPublishFailures (setting : Option Nat) : Nat :=
  setting.getD 3

/-- Observable trace of one `_publish_with_retry` call: the returned
boolean, how many times `publish_next_step` was invoked, and the sleep
durations (in seconds) between failed attempts. -/
structure PublishTrace where
  success : Bool
  attemptsMade : Nat
  sleeps : List ℚ
deriving Repr, DecidableEq

/-- The loop of `_publish_with_retry`, at absolute attempt index `k` with
`remaining` iterations left; `outcomes i = true` means the `i`-th
`publish_next_step` invocation does not raise.  A failed attempt that is
not the last sleeps `0.1 * 2 ^ i` seconds (views.py line 196). -/
def publishGo (outcomes : Nat → Bool) (k : Nat) : Nat → PublishTrace
  | 0 => ⟨false, 0, []⟩
  | remaining + 1 =>
    if outcomes k then ⟨true, 1, []⟩
    else if remaining = 0 then ⟨false, 1, []⟩
    else
      let rest := publishGo outcomes (k + 1) remaining
      ⟨rest.success, rest.attemptsMade + 1, ((1 : ℚ) / 10) * 2 ^ k :: rest.sleeps⟩

/-- The loop `_publish_with_retry` with `max_attempts` iterations. -/
def publishWithRetry (outcomes : Nat → Bool) (maxAttempts : Nat) : PublishTrace :=
  publishGo outcomes 0 maxAttempts

/-! ### Webhook handler (`_workflow_webhook_impl`, views.py lines 342-751)

The handler is embedded as a pure function of an environment that fixes
the outcomes of its external collaborators: signature verification, the
persistence reads, the run registry, the row lock, the retry policy
(`should_retry` / `get_retry_delay` from `retry.py`) and the publish loop.
Its output records the HTTP response together with every side effect the
claims mention. -/

/-- Exceptions the workflow body can raise out of `workflow.execute`,
matched by the `except` clauses in order: `StepCompleted`
(exceptions.py lines 44-62), `WorkflowError`, anything else. -/
inductive WorkflowExc (V : Type) where
  | stepCompleted (stepId : String) (result : V) (completedSteps : List (String × V))
  | workflowError (retryable : Bool)
  | other
deriving Repr, DecidableEq

/-- How one guarded `workflow.execute` call ends, as dispatched by the
handler's `except` clauses. -/
inductive ExecOutcome (V : Type) where
  | completed (result : V)
  | timedOut
  | stepCompleted (stepId : String) (result : V) (completedSteps : List (String × V))
  | workflowError (retryable : Bool)
  | unexpected
deriving Repr, DecidableEq

/-- Dispatch of the guard's exit onto the handler's `except` clauses:
`ExecutionTimeoutError` first, then `StepCompleted`, then `WorkflowError`,
then the bare `except Exception`. -/
def execOutcomeOfGuard {V : Type} : GuardResult (WorkflowExc V) V → ExecOutcome V
  | .ok r => .completed r
  | .timeoutError _ => .timedOut
  | .raised (.stepCompleted sid r cs) => .stepCompleted sid r cs
  | .raised (.workflowError retryable) => .workflowError retryable
  | .raised .other => .unexpected

/-- State of the `WorkflowRun` row when `_acquire_workflow_lock` runs:
absent, present and unlocked, or locked by another transaction. -/
inductive LockRow where
  | missing
  | free
  | heldByOther
deriving Repr, DecidableEq

/-- Lock helper `_acquire_workflow_lock` (views.py lines 258-284): always true when
persistence is disabled; `DoesNotExist` (missing row) is treated as
acquired; `DatabaseError` from `select_for_update(nowait=True)` (row held
elsewhere) returns false. -/
def acquireWorkflowLock (persistEnabled : Bool) (row : LockRow) : Bool :=
  if !persistEnabled then true
  else
    match row with
    | .missing => true
    | .free => true
    | .heldByOther => false

/-- Python truthiness of an optional string (`if run_id:`): `None` and the
empty string are falsy. -/
def optStrTruthy : Option String → Bool
  | none => false
  | some s => !(s == "")

/-- One `_publish_with_retry` call site, with the completed-steps map,
delay and attempt it forwards to `publish_next_step`. -/
structure PublishCall (V : Type) where
  steps : List (String × V)
  delaySeconds : Option Nat
  attempt : Nat
deriving Repr, DecidableEq

/-- Response tags of `_workflow_webhook_impl`, one per `JsonResponse`
site. -/
inductive RespTag where
  | sigInvalid
  | tooLarge
  | badJson
  | idMismatch
  | noRunId
  | serviceShuttingDown
  | notFound
  | lockContention
  | completed
  | timeoutRetrying
  | timedOutDLQ
  | stepCompleted
  | publishFailed
  | wfRetrying
  | wfFailedDLQ
  | internalError
deriving Repr, DecidableEq

/-- HTTP status and which response site produced it. -/
structure Response where
  status : Nat
  tag : RespTag
deriving Repr, DecidableEq

/-- Side effects of one handler run: whether `workflow.execute` was invoked
and with which completed-steps map, the persistence calls made, whether a
`DeadLetterEntry` was written, each `_publish_with_retry` call, whether
the duplicate-step idempotency log line fired, and whether
`should_retry` was consulted. -/
structure Effects (V : Type) where
  executed : Bool
  stepsForExecute : List (String × V)
  collisionLogged : Bool
  dlqWritten : Bool
  markFailed : Bool
  markCompleted : Bool
  retryIncremented : Bool
  retryReset : Bool
  stepPersisted : Option (String × V)
  publishes : List (PublishCall V)
  shouldRetryConsulted : Bool
deriving Repr, DecidableEq

/-- No side effects yet. -/
def noEffects {V : Type} : Effects V :=
  ⟨false, [], false, false, false, false, false, false, none, [], false⟩

/-- Environment of one handler invocation: the parsed request together with
the behaviour of every external collaborator. -/
structure WebhookEnv (V : Type) where
  urlWorkflowId : String
  sigValid : Bool
  payloadSize : Nat
  maxPayloadSize : Nat
  parseOk : Bool
  payloadWorkflowId : Option String
  runId : Option String
  payloadSteps : List (String × V)
  attempt : Nat
  persistEnabled : Bool
  dbSteps : List (String × V)
  shuttingDown : Bool
  workflowFound : Bool
  lockRow : LockRow
  exec : ExecOutcome V
  shouldRetryAt : Nat → Bool
  retryDelayAt : Nat → Nat
  publishOk : Bool

/-- Result of one handler invocation. -/
structure WebhookResult (V : Type) where
  resp : Response
  eff : Effects V
deriving Repr, DecidableEq

/-- The completed-steps map after step 3a (views.py lines 423-443): when
persistence is enabled and `run_id` is truthy, the payload map is replaced
by `{**db_completed_steps, **completed_steps}`. -/
def mergedSteps {V : Type} (env : WebhookEnv V) : List (String × V) :=
  if env.persistEnabled && optStrTruthy env.runId then
    pyDictMerge env.dbSteps env.payloadSteps
  else env.payloadSteps

/-- Whether the idempotency log line at views.py line 432 fires: merging
happened, the db map was truthy, and the key intersection was non-empty. -/
def collisionLoggedB {V : Type} (env : WebhookEnv V) : Bool :=
  env.persistEnabled && optStrTruthy env.runId && !env.dbSteps.isEmpty
    && !(duplicateSteps env.dbSteps env.payloadSteps).isEmpty

/-- Effects on entry to the `try` block: the merge already happened and
`workflow.execute` is invoked with the merged map. -/
def effAtExec {V : Type} (env : WebhookEnv V) : Effects V :=
  { (noEffects : Effects V) with
      collisionLogged := collisionLoggedB env
      executed := true
      stepsForExecute := mergedSteps env }

/-- The `try`/`except` dispatch of `_workflow_webhook_impl` (views.py lines
509-747), entered once every gate has passed. -/
def dispatchExec {V : Type} (env : WebhookEnv V) : WebhookResult V :=
  let steps := mergedSteps env
  let eff₁ := effAtExec env
  match env.exec with
      | .completed _ =>
        ⟨⟨200, .completed⟩, { eff₁ with markCompleted := env.persistEnabled }⟩
      | .timedOut =>
        if env.shouldRetryAt env.attempt then
          let pc : PublishCall V :=
            ⟨steps, some (env.retryDelayAt env.attempt), env.attempt + 1⟩
          if env.publishOk then
            ⟨⟨200, .timeoutRetrying⟩,
              { eff₁ with publishes := [pc], shouldRetryConsulted := true }⟩
          else
            ⟨⟨504, .timedOutDLQ⟩,
              { eff₁ with
                  publishes := [pc]
                  shouldRetryConsulted := true
                  dlqWritten := true
                  markFailed := env.persistEnabled }⟩
        else
          ⟨⟨504, .timedOutDLQ⟩,
            { eff₁ with
                shouldRetryConsulted := true
                dlqWritten := true
                markFailed := env.persistEnabled }⟩
      | .stepCompleted stepId r csteps =>
        let eff₂ := { eff₁ with
          stepPersisted := if env.persistEnabled then some (stepId, r) else none
          retryReset := env.persistEnabled
          publishes := [(⟨csteps, none, 0⟩ : PublishCall V)] }
        if !env.publishOk then ⟨⟨500, .publishFailed⟩, eff₂⟩
        else ⟨⟨200, .stepCompleted⟩, eff₂⟩
      | .workflowError retryable =>
        if retryable && env.shouldRetryAt env.attempt then
          let pc : PublishCall V :=
            ⟨steps, some (env.retryDelayAt env.attempt), env.attempt + 1⟩
          let eff₂ := { eff₁ with
            shouldRetryConsulted := true
            retryIncremented := env.persistEnabled
            publishes := [pc] }
          if env.publishOk then ⟨⟨200, .wfRetrying⟩, eff₂⟩
          else
            ⟨⟨500, .wfFailedDLQ⟩,
              { eff₂ with dlqWritten := true, markFailed := env.persistEnabled }⟩
        else
          ⟨⟨500, .wfFailedDLQ⟩,
            { eff₁ with
                shouldRetryConsulted := retryable
                dlqWritten := true
                markFailed := env.persistEnabled }⟩
      | .unexpected =>
        ⟨⟨500, .internalError⟩, { eff₁ with markFailed := env.persistEnabled }⟩

/-- Whether the payload's `workflow_id` fails validation (views.py line
446): falsy (`None` or empty) or different from the URL's workflow id. -/
def wfIdBad {V : Type} (env : WebhookEnv V) : Bool :=
  match env.payloadWorkflowId with
  | none => true
  | some s => (s == "") || !(s == env.urlWorkflowId)

/-- The handler `_workflow_webhook_impl`, following views.py lines 342-751 clause by
clause: signature check, payload-size check, JSON parse, the optional
db/payload completed-steps merge with its idempotency log, workflow-id and
run-id validation, the shutdown gate, registry lookup, the row lock, and
finally the `try`/`except` dispatch `dispatchExec`. -/
def workflowWebhook {V : Type} (env : WebhookEnv V) : WebhookResult V :=
  if !env.sigValid then ⟨⟨401, .sigInvalid⟩, noEffects⟩
  else if env.maxPayloadSize < env.payloadSize then ⟨⟨413, .tooLarge⟩, noEffects⟩
  else if !env.parseOk then ⟨⟨400, .badJson⟩, noEffects⟩
  else
    let eff₀ := { (noEffects : Effects V) with collisionLogged := collisionLoggedB env }
    if wfIdBad env then ⟨⟨400, .idMismatch⟩, eff₀⟩
    else if !optStrTruthy env.runId then ⟨⟨400, .noRunId⟩, eff₀⟩
    else if env.shuttingDown then ⟨⟨503, .serviceShuttingDown⟩, eff₀⟩
    else if !env.workflowFound then ⟨⟨404, .notFound⟩, eff₀⟩
    else if !acquireWorkflowLock env.persistEnabled env.lockRow then
      ⟨⟨409, .lockContention⟩, eff₀⟩
    else dispatchExec env

/-- A baseline invocation environment used to instantiate the hypotheses of
the handler theorems: a valid, in-budget request for workflow `"wf"` and
run `"run-1"`, persistence enabled, db map `{a: 1}`, payload map
`{a: 2, b: 3}`, a free row lock, and a publish path that succeeds. -/
def sampleEnv : WebhookEnv Nat :=
  { urlWorkflowId := "wf"
    sigValid := true
    payloadSize := 10
    maxPayloadSize := 1048576
    parseOk := true
    payloadWorkflowId := some "wf"
    runId := some "run-1"
    payloadSteps := [("a", 2), ("b", 3)]
    attempt := 0
    persistEnabled := true
    dbSteps := [("a", 1)]
    shuttingDown := false
    workflowFound := true
    lockRow := .free
    exec := .completed 0
    shouldRetryAt := fun a => a < 5
    retryDelayAt := fun a => 2 ^ a
    publishOk := true }

/-- A concrete breaker configuration used to instantiate the circuit
breaker theorems: enabled, threshold 2, recovery timeout 30 s, 2 half-open
successes to close. -/
def cfgW : CBConfig :=
  ⟨true, 2, 30, 2⟩

/-! ### Helper lemmas -/

theorem lookupD_nil {V : Type} (k : String) : lookupD ([] : List (String × V)) k = none := rfl

theorem lookupD_cons {V : Type} (p : String × V) (d : List (String × V)) (k : String) :
    lookupD (p :: d) k = if p.1 == k then some p.2 else lookupD d k := by
  simp only [lookupD, List.find?]
  cases h : (p.1 == k) <;> simp [h]

/-- Lookup in the `a`-part of a Python merge: present iff present in `a`,
with `b`'s value substituted when `b` also has the key. -/
theorem lookupD_merge_left {V : Type} (a b : List (String × V)) (k : String) :
    lookupD (a.map fun p => (p.1, ((lookupD b p.1).getD p.2))) k
      = (lookupD a k).map (fun v => (lookupD b k).getD v) := by
  induction a with
  | nil => rfl
  | cons p a ih =>
    simp only [List.map_cons, lookupD_cons]
    by_cases h : p.1 = k
    · subst h
      simp [lookupD_cons]
    · have hb : (p.1 == k) = false := by simpa using h
      simp [hb, ih]

/-- Filtering out the keys of `a` does not change lookups of keys absent
from `a`. -/
theorem lookupD_filter_of_not_mem {V : Type} (a b : List (String × V)) (k : String)
    (hk : lookupD a k = none) :
    lookupD (b.filter fun p => (lookupD a p.1).isNone) k = lookupD b k := by
  induction b with
  | nil => rfl
  | cons p b ih =>
    by_cases h : p.1 = k
    · subst h
      have : (lookupD a p.1).isNone = true := by simp [hk]
      simp [List.filter_cons, this, lookupD_cons]
    · have hb : (p.1 == k) = false := by simpa using h
      cases hpa : (lookupD a p.1).isNone with
      | true => simp [List.filter_cons, hpa, lookupD_cons, hb, ih]
      | false => simp [List.filter_cons, hpa, lookupD_cons, hb, ih]

/-- Keys of `a` never survive the filter-part of the merge. -/
theorem lookupD_filter_of_mem {V : Type} (a b : List (String × V)) (k : String)
    (hk : (lookupD a k).isSome) :
    lookupD (b.filter fun p => (lookupD a p.1).isNone) k = none := by
  induction b with
  | nil => rfl
  | cons p b ih =>
    by_cases h : p.1 = k
    · subst h
      have : (lookupD a p.1).isNone = false := by
        cases hv : lookupD a p.1 with
        | none => rw [hv] at hk; simp at hk
        | some v => simp
      simp [List.filter_cons, this, ih]
    · have hb : (p.1 == k) = false := by simpa using h
      cases hpa : (lookupD a p.1).isNone with
      | true => simp [List.filter_cons, hpa, lookupD_cons, hb, ih]
      | false => simp [List.filter_cons, hpa, lookupD_cons, hb, ih]

/-- The Python merge `{**a, **b}` looks up like "`b` first, else `a`":
entries of the second dict take precedence on key collision. -/
theorem lookupD_pyDictMerge {V : Type} (a b : List (String × V)) (k : String) :
    lookupD (pyDictMerge a b) k
      = Option.orElse (lookupD b k) (fun _ => lookupD a k) := by
  unfold pyDictMerge
  have happ : ∀ (l₁ l₂ : List (String × V)),
      lookupD (l₁ ++ l₂) k = Option.orElse (lookupD l₁ k) (fun _ => lookupD l₂ k) := by
    intro l₁ l₂
    induction l₁ with
    | nil => simp [lookupD_nil, Option.orElse]
    | cons p l₁ ih =>
      rw [List.cons_append, lookupD_cons, lookupD_cons]
      cases h : (p.1 == k) <;> simp [h, ih, Option.orElse]
  rw [happ, lookupD_merge_left]
  cases ha : lookupD a k with
  | none =>
    rw [lookupD_filter_of_not_mem a b k ha]
    cases hb : lookupD b k <;> simp [Option.orElse]
  | some v =>
    rw [lookupD_filter_of_mem a b k (by simp [ha])]
    cases hb : lookupD b k <;> simp [Option.orElse]

/-- Merging an empty db map is the identity on the payload map. -/
theorem pyDictMerge_nil_left {V : Type} (b : List (String × V)) :
    pyDictMerge ([] : List (String × V)) b = b := by
  unfold pyDictMerge
  simp [lookupD_nil, Option.isNone]

theorem lookupD_map_overwrite {V : Type} (d : List (String × V)) (k : String) (v : V)
    (h : (lookupD d k).isSome = true) :
    lookupD (d.map fun p => if p.1 == k then (k, v) else p) k = some v := by
  induction d with
  | nil => simp [lookupD] at h
  | cons p d ih =>
    obtain ⟨p1, p2⟩ := p
    rw [List.map_cons]
    by_cases hp : p1 = k
    · subst hp
      simp [lookupD_cons]
    · have hb : (p1 == k) = false := by simp [hp]
      rw [lookupD_cons] at h
      simp only [hb, Bool.false_eq_true, if_false] at h
      have hhead : (if ((p1, p2).1 == k) = true then (k, v) else (p1, p2)) = (p1, p2) := by
        simp [hb]
      rw [hhead, lookupD_cons]
      simp only [hb, Bool.false_eq_true, if_false]
      exact ih h

theorem lookupD_append_right {V : Type} (d : List (String × V)) (k : String) (v : V)
    (h : lookupD d k = none) :
    lookupD (d ++ [(k, v)]) k = some v := by
  induction d with
  | nil => simp [lookupD]
  | cons p d ih =>
    obtain ⟨p1, p2⟩ := p
    by_cases hp : p1 = k
    · subst hp
      rw [lookupD_cons] at h
      simp at h
    · have hb : (p1 == k) = false := by simp [hp]
      rw [lookupD_cons] at h
      simp only [hb, Bool.false_eq_true, if_false] at h
      rw [List.cons_append, lookupD_cons]
      simp only [hb, Bool.false_eq_true, if_false]
      exact ih h

/-- Dict insert `d[k] = v` makes the subsequent lookup of `k` return `v`. -/
theorem lookupD_insertD {V : Type} (d : List (String × V)) (k : String) (v : V) :
    lookupD (insertD d k v) k = some v := by
  unfold insertD
  cases h : (lookupD d k) with
  | some w =>
    rw [if_pos (by simp [h])]
    exact lookupD_map_overwrite d k v (by simp [h])
  | none =>
    rw [if_neg (by simp [h])]
    exact lookupD_append_right d k v h

/-- Once every gate before the `try` block passes — valid signature,
payload within budget, well-formed JSON, matching non-empty workflow id,
truthy run id, not shutting down, workflow registered, lock acquired — the
handler's behaviour is exactly the `try`/`except` dispatch. -/
theorem workflowWebhook_reaches {V : Type} (env : WebhookEnv V)
    (hSig : env.sigValid = true)
    (hSize : env.payloadSize ≤ env.maxPayloadSize)
    (hParse : env.parseOk = true)
    (hWf : env.payloadWorkflowId = some env.urlWorkflowId)
    (hWfNe : env.urlWorkflowId ≠ "")
    (hRun : optStrTruthy env.runId = true)
    (hShut : env.shuttingDown = false)
    (hFound : env.workflowFound = true)
    (hLock : acquireWorkflowLock env.persistEnabled env.lockRow = true) :
    workflowWebhook env = dispatchExec env := by
  have hSize' : ¬ (env.maxPayloadSize < env.payloadSize) := not_lt.mpr hSize
  have hb : (env.urlWorkflowId == "") = false := by simp [hWfNe]
  have hBad : wfIdBad env = false := by
    rw [wfIdBad, hWf]
    simp [hb]
  rw [workflowWebhook, if_neg (by simp [hSig]), if_neg hSize', if_neg (by simp [hParse])]
  rw [if_neg (by simp [hBad]), if_neg (by simp [hRun]), if_neg (by simp [hShut])]
  rw [if_neg (by simp [hFound]), if_neg (by simp [hLock])]

theorem dispatchExec_unexpected {V : Type} (env : WebhookEnv V)
    (h : env.exec = .unexpected) :
    dispatchExec env =
      ⟨⟨500, .internalError⟩, { effAtExec env with markFailed := env.persistEnabled }⟩ := by
  simp [dispatchExec, h]

theorem dispatchExec_stepCompleted {V : Type} (env : WebhookEnv V)
    (sid : String) (r : V) (cs : List (String × V))
    (h : env.exec = .stepCompleted sid r cs) (hPub : env.publishOk = true) :
    dispatchExec env =
      ⟨⟨200, .stepCompleted⟩,
        { effAtExec env with
            stepPersisted := if env.persistEnabled then some (sid, r) else none
            retryReset := env.persistEnabled
            publishes := [(⟨cs, none, 0⟩ : PublishCall V)] }⟩ := by
  simp [dispatchExec, h, hPub]

/-- The effect record of any dispatch outcome keeps the `executed`,
`stepsForExecute` and `collisionLogged` fields of `effAtExec`. -/
theorem dispatchExec_eff_exec {V : Type} (env : WebhookEnv V) :
    (dispatchExec env).eff.executed = true ∧
    (dispatchExec env).eff.stepsForExecute = mergedSteps env ∧
    (dispatchExec env).eff.collisionLogged = collisionLoggedB env := by
  unfold dispatchExec
  cases hx : env.exec with
  | completed r => simp [effAtExec]
  | timedOut =>
    by_cases h1 : env.shouldRetryAt env.attempt <;> by_cases h2 : env.publishOk <;>
      simp [h1, h2, effAtExec]
  | stepCompleted sid r cs =>
    by_cases h2 : env.publishOk <;> simp [h2, effAtExec]
  | workflowError retryable =>
    by_cases h1 : (retryable && env.shouldRetryAt env.attempt) = true <;>
      by_cases h2 : env.publishOk <;> simp [h1, h2, effAtExec]
  | unexpected => simp [effAtExec]

/-- The response of the dispatch does not depend on the completed-steps
maps: it is determined by the exec outcome, the retry policy, the attempt
and the publish result. -/
theorem dispatchExec_resp_congr {V : Type} (env env' : WebhookEnv V)
    (hE : env'.exec = env.exec)
    (hA : env'.attempt = env.attempt)
    (hSR : env'.shouldRetryAt = env.shouldRetryAt)
    (hRD : env'.retryDelayAt = env.retryDelayAt)
    (hP : env'.publishOk = env.publishOk) :
    (dispatchExec env').resp = (dispatchExec env).resp := by
  unfold dispatchExec
  rw [hE, hA, hSR, hRD, hP]
  cases hx : env.exec with
  | completed r => rfl
  | timedOut =>
    by_cases h1 : env.shouldRetryAt env.attempt <;> by_cases h2 : env.publishOk <;>
      simp [h1, h2]
  | stepCompleted sid r cs =>
    by_cases h2 : env.publishOk <;> simp [h2]
  | workflowError retryable =>
    by_cases h1 : (retryable && env.shouldRetryAt env.attempt) = true <;>
      by_cases h2 : env.publishOk <;> simp [h1, h2]
  | unexpected => rfl

/-! ### Circuit-breaker reduction and iteration lemmas -/

theorem recordFailure_closed_eq (cfg : CBConfig) (hEn : cfg.enabled = true)
    (now : Int) (s : CBState) (hs : s.state = .closed) :
    recordFailure cfg now s =
      if cfg.failureThreshold ≤ s.failureCount + 1 then
        ⟨.opened, s.failureCount + 1, s.successCount, some now, some now⟩
      else ⟨.closed, s.failureCount + 1, s.successCount, some now, s.openedAt⟩ := by
  obtain ⟨st, fc, sc, lf, oa⟩ := s
  cases hs
  simp [recordFailure, hEn, transitionToOpen]

theorem recordFailure_halfOpen_eq (cfg : CBConfig) (hEn : cfg.enabled = true)
    (now : Int) (s : CBState) (hs : s.state = .halfOpen) :
    recordFailure cfg now s =
      ⟨.opened, s.failureCount, s.successCount, some now, some now⟩ := by
  obtain ⟨st, fc, sc, lf, oa⟩ := s
  cases hs
  simp [recordFailure, hEn, transitionToOpen]

theorem recordSuccess_halfOpen_eq (cfg : CBConfig) (hEn : cfg.enabled = true)
    (s : CBState) (hs : s.state = .halfOpen) :
    recordSuccess cfg s =
      if cfg.halfOpenRequests ≤ s.successCount + 1 then
        ⟨.closed, 0, 0, s.lastFailureTime, none⟩
      else ⟨.halfOpen, s.failureCount, s.successCount + 1, s.lastFailureTime, s.openedAt⟩ := by
  obtain ⟨st, fc, sc, lf, oa⟩ := s
  cases hs
  simp [recordSuccess, hEn, transitionToClosed]

/-- Consecutive failures from a CLOSED state open the breaker exactly when
the counter reaches the threshold. -/
theorem iter_recordFailure_opens (cfg : CBConfig) (hEn : cfg.enabled = true) (now : Int) :
    ∀ (n : Nat) (s : CBState), 1 ≤ n → s.state = .closed →
      s.failureCount + n = cfg.failureThreshold →
      ((recordFailure cfg now)^[n] s).state = .opened := by
  intro n
  induction n with
  | zero => intro s h1 _ _; exact absurd h1 (by omega)
  | succ n ih =>
    intro s _ hs hcount
    rw [Function.iterate_succ_apply]
    rcases Nat.eq_zero_or_pos n with hn | hn
    · subst hn
      rw [Function.iterate_zero_apply]
      rw [recordFailure_closed_eq cfg hEn now s hs, if_pos (by omega)]
    · rw [recordFailure_closed_eq cfg hEn now s hs, if_neg (by omega)]
      exact ih _ hn rfl (by simp only [CBState.failureCount]; omega)

/-- Consecutive successes from a HALF_OPEN state close the breaker exactly
when the counter reaches `half_open_requests`. -/
theorem iter_recordSuccess_closes (cfg : CBConfig) (hEn : cfg.enabled = true) :
    ∀ (n : Nat) (s : CBState), 1 ≤ n → s.state = .halfOpen →
      s.successCount + n = cfg.halfOpenRequests →
      ((recordSuccess cfg)^[n] s).state = .closed := by
  intro n
  induction n with
  | zero => intro s h1 _ _; exact absurd h1 (by omega)
  | succ n ih =>
    intro s _ hs hcount
    rw [Function.iterate_succ_apply]
    rcases Nat.eq_zero_or_pos n with hn | hn
    · subst hn
      rw [Function.iterate_zero_apply]
      rw [recordSuccess_halfOpen_eq cfg hEn s hs, if_pos (by omega)]
    · rw [recordSuccess_halfOpen_eq cfg hEn s hs, if_neg (by omega)]
      exact ih _ hn rfl (by simp only [CBState.successCount]; omega)

/-! ### Publish-retry loop lemmas -/

theorem publishGo_attempts_le (outcomes : Nat → Bool) :
    ∀ (remaining k : Nat), (publishGo outcomes k remaining).attemptsMade ≤ remaining := by
  intro remaining
  induction remaining with
  | zero => intro k; simp [publishGo]
  | succ remaining ih =>
    intro k
    simp only [publishGo]
    by_cases hk : outcomes k = true
    · simp [hk]
    · simp only [hk, Bool.false_eq_true, if_false]
      by_cases hr : remaining = 0
      · simp [hr]
      · rw [if_neg hr]
        have := ih (k + 1)
        simpa using Nat.succ_le_succ this

theorem publishGo_attempts_pos (outcomes : Nat → Bool) :
    ∀ (remaining k : Nat), 1 ≤ remaining →
      1 ≤ (publishGo outcomes k remaining).attemptsMade := by
  intro remaining
  cases remaining with
  | zero => intro k h; exact absurd h (by omega)
  | succ remaining =>
    intro k _
    simp only [publishGo]
    by_cases hk : outcomes k = true
    · simp [hk]
    · simp only [hk, Bool.false_eq_true, if_false]
      by_cases hr : remaining = 0
      · simp [hr]
      · rw [if_neg hr]
        simp

theorem publishGo_success_iff (outcomes : Nat → Bool) :
    ∀ (remaining k : Nat),
      ((publishGo outcomes k remaining).success = true ↔
        ∃ i, i < remaining ∧ outcomes (k + i) = true) := by
  intro remaining
  induction remaining with
  | zero => intro k; simp [publishGo]
  | succ remaining ih =>
    intro k
    simp only [publishGo]
    by_cases hk : outcomes k = true
    · simp only [hk, if_true]
      constructor
      · intro _; exact ⟨0, by omega, by simpa using hk⟩
      · intro _; trivial
    · simp only [hk, Bool.false_eq_true, if_false]
      by_cases hr : remaining = 0
      · subst hr
        rw [if_pos rfl]
        constructor
        · intro h; exact absurd h (by simp)
        · rintro ⟨i, hi, ho⟩
          have : i = 0 := by omega
          subst this
          simp only [Nat.add_zero] at ho
          exact absurd ho hk
      · rw [if_neg hr]
        constructor
        · intro h
          obtain ⟨i, hi, ho⟩ := (ih (k + 1)).mp h
          refine ⟨i + 1, by omega, ?_⟩
          rwa [show k + (i + 1) = k + 1 + i by omega]
        · rintro ⟨i, hi, ho⟩
          cases i with
          | zero => simp only [Nat.add_zero] at ho; exact absurd ho hk
          | succ j =>
            apply (ih (k + 1)).mpr
            refine ⟨j, by omega, ?_⟩
            rwa [show k + 1 + j = k + (j + 1) by omega]

theorem publishGo_success_first (outcomes : Nat → Bool) :
    ∀ (remaining k : Nat), (publishGo outcomes k remaining).success = true →
      outcomes (k + ((publishGo outcomes k remaining).attemptsMade - 1)) = true ∧
      ∀ i < (publishGo outcomes k remaining).attemptsMade - 1, outcomes (k + i) = false := by
  intro remaining
  induction remaining with
  | zero => intro k h; exact absurd h (by simp [publishGo])
  | succ remaining ih =>
    intro k
    simp only [publishGo]
    by_cases hk : outcomes k = true
    · simp only [hk, if_true]
      intro _
      exact ⟨by simpa using hk, by intro i hi; omega⟩
    · simp only [hk, Bool.false_eq_true, if_false]
      by_cases hr : remaining = 0
      · rw [if_pos hr]
        intro h
        exact absurd h (by simp)
      · rw [if_neg hr]
        intro h
        have hsucc : (publishGo outcomes (k + 1) remaining).success = true := h
        obtain ⟨h1, h2⟩ := ih (k + 1) hsucc
        have hpos : 1 ≤ (publishGo outcomes (k + 1) remaining).attemptsMade :=
          publishGo_attempts_pos outcomes remaining (k + 1) (by omega)
        constructor
        · have : k + ((publishGo outcomes (k + 1) remaining).attemptsMade + 1 - 1)
              = k + 1 + ((publishGo outcomes (k + 1) remaining).attemptsMade - 1) := by
            omega
          rw [this]
          exact h1
        · intro i hi
          cases i with
          | zero => simpa using hk
          | succ j =>
            have hj : j < (publishGo outcomes (k + 1) remaining).attemptsMade - 1 := by
              simp only [] at hi
              omega
            have := h2 j hj
            rwa [show k + (j + 1) = k + 1 + j by omega]

theorem publishGo_failure_attempts (outcomes : Nat → Bool) :
    ∀ (remaining k : Nat), (publishGo outcomes k remaining).success = false →
      (publishGo outcomes k remaining).attemptsMade = remaining := by
  intro remaining
  induction remaining with
  | zero => intro k _; simp [publishGo]
  | succ remaining ih =>
    intro k
    simp only [publishGo]
    by_cases hk : outcomes k = true
    · simp [hk]
    · simp only [hk, Bool.false_eq_true, if_false]
      by_cases hr : remaining = 0
      · simp [hr]
      · rw [if_neg hr]
        intro h
        have := ih (k + 1) h
        simp [this]

theorem publishGo_sleeps (outcomes : Nat → Bool) :
    ∀ (remaining k : Nat), (publishGo outcomes k remaining).sleeps =
      (List.range ((publishGo outcomes k remaining).attemptsMade - 1)).map
        (fun i => ((1 : ℚ) / 10) * 2 ^ (k + i)) := by
  intro remaining
  induction remaining with
  | zero => intro k; simp [publishGo]
  | succ remaining ih =>
    intro k
    simp only [publishGo]
    by_cases hk : outcomes k = true
    · simp [hk]
    · simp only [hk, Bool.false_eq_true, if_false]
      by_cases hr : remaining = 0
      · simp [hr]
      · rw [if_neg hr]
        have hpos : 1 ≤ (publishGo outcomes (k + 1) remaining).attemptsMade :=
          publishGo_attempts_pos outcomes remaining (k + 1) (by omega)
        obtain ⟨m, hm⟩ : ∃ m, (publishGo outcomes (k + 1) remaining).attemptsMade = m + 1 :=
          ⟨(publishGo outcomes (k + 1) remaining).attemptsMade - 1, by omega⟩
        have htail := ih (k + 1)
        rw [hm] at htail
        simp only [Nat.add_sub_cancel] at htail
        show ((1 : ℚ) / 10) * 2 ^ k :: (publishGo outcomes (k + 1) remaining).sleeps
          = (List.range ((publishGo outcomes (k + 1) remaining).attemptsMade + 1 - 1)).map
              (fun i => ((1 : ℚ) / 10) * 2 ^ (k + i))
        rw [hm]
        simp only [Nat.add_sub_cancel]
        rw [List.range_succ_eq_map, List.map_cons, List.map_map, htail]
        congr 1
        refine List.map_congr_left ?_
        intro a _
        simp only [Function.comp_apply]
        have hxy : k + 1 + a = k + a.succ := by omega
        rw [hxy]

/-! ### Claim theorems -/

/-- C4: For every use of the execution-timeout guard with
`timeout_seconds > 0`, if the deadline elapses before the wrapped call
exits normally, the guard raises `ExecutionTimeoutError` carrying
`timeout_seconds`, `workflow_id` and `run_id` on the wrapped call's normal
exit, even though the call produced a result. -/
theorem C4_timeout_raised_on_normal_exit {E R : Type} (t elapsed : Nat)
    (wf run : String) (r : R) (h1 : 0 < t) (h2 : t ≤ elapsed) :
    executionTimeout t wf run elapsed (ExecEnd.normal r : ExecEnd E R)
      = .timeoutError ⟨t, wf, run⟩ := by
  simp [executionTimeout, timedOutFlag, h1, h2]

/-- Witness for C4 at timeout 3 s and a body that returns 42 after 5 s. -/
theorem C4_timeout_raised_on_normal_exit_witness :
    0 < 3 ∧ 3 ≤ 5 ∧
    executionTimeout 3 "wf" "run-1" 5 (ExecEnd.normal 42 : ExecEnd Unit Nat)
      = .timeoutError ⟨3, "wf", "run-1"⟩ :=
  ⟨by decide, by decide,
    C4_timeout_raised_on_normal_exit 3 5 "wf" "run-1" 42 (by decide) (by decide)⟩

/-- C10: With the breaker disabled (the default), `call` invokes the
wrapped function directly and never raises `CircuitBreakerError`
regardless of the stored state, and `record_success` / `record_failure`
leave every field of the state unchanged. -/
theorem C10_disabled_breaker_is_inert (cfg : CBConfig) (hEn : cfg.enabled = false)
    (s : CBState) (now : Int) :
    recordSuccess cfg s = s ∧
    recordFailure cfg now s = s ∧
    (∀ (E R : Type) (r : R),
      circuitCall cfg now s (ExecEnd.normal r : ExecEnd E R) = (.result r, s)) ∧
    (∀ (E R : Type) (e : E),
      circuitCall cfg now s (ExecEnd.raised e : ExecEnd E R) = (.fnRaised e, s)) := by
  refine ⟨?_, ?_, ?_, ?_⟩
  · simp [recordSuccess, hEn]
  · simp [recordFailure, hEn]
  · intro E R r
    simp [circuitCall, hEn]
  · intro E R e
    simp [circuitCall, hEn]

/-- Witness for C10 with a disabled breaker whose stored state is OPEN:
the call still goes through to the function. -/
theorem C10_disabled_breaker_is_inert_witness :
    recordFailure ⟨false, 2, 30, 2⟩ 0 ⟨.opened, 9, 0, none, some 0⟩
      = ⟨.opened, 9, 0, none, some 0⟩ ∧
    circuitCall ⟨false, 2, 30, 2⟩ 0 ⟨.opened, 9, 0, none, some 0⟩
        (ExecEnd.normal 7 : ExecEnd Unit Nat)
      = (.result 7, ⟨.opened, 9, 0, none, some 0⟩) := by
  have h := C10_disabled_breaker_is_inert ⟨false, 2, 30, 2⟩ rfl
    ⟨.opened, 9, 0, none, some 0⟩ 0
  exact ⟨h.2.1, h.2.2.1 Unit Nat 7⟩

/-- C8: With graceful shutdown enabled, `track_request_start(run_id)`
returns `False` and leaves the in-flight map unchanged whenever shutdown
has been initiated; otherwise it records `run_id` with its start time and
returns `True`. -/
theorem C8_track_request_start (now : Int) (runId : String) (s : ShutdownState) :
    (s.shuttingDown = true → trackRequestStart true now runId s = (false, s)) ∧
    (s.shuttingDown = false →
      (trackRequestStart true now runId s).1 = true ∧
      (trackRequestStart true now runId s).2.inFlight = insertD s.inFlight runId now ∧
      lookupD (trackRequestStart true now runId s).2.inFlight runId = some now) := by
  constructor
  · intro h
    simp [trackRequestStart, h]
  · intro h
    refine ⟨?_, ?_, ?_⟩
    · simp [trackRequestStart, h]
    · simp [trackRequestStart, h]
    · simp only [trackRequestStart, h]
      simp [lookupD_insertD]

/-- Witness for C8: one shutting-down state rejects without change, one
accepting state records the start time. -/
theorem C8_track_request_start_witness :
    trackRequestStart true 5 "run-1" ⟨true, []⟩ = (false, ⟨true, []⟩) ∧
    (trackRequestStart true 5 "run-1" ⟨false, [("r0", 1)]⟩).1 = true ∧
    lookupD (trackRequestStart true 5 "run-1" ⟨false, [("r0", 1)]⟩).2.inFlight "run-1"
      = some 5 := by
  have h1 := (C8_track_request_start 5 "run-1" ⟨true, []⟩).1 rfl
  have h2 := (C8_track_request_start 5 "run-1" ⟨false, [("r0", 1)]⟩).2 rfl
  exact ⟨h1, h2.1, h2.2.2⟩

/-- C7: `_publish_with_retry` invokes `publish_next_step` at most
`max_publish_failures` times (default 3), returns `True` as soon as one
invocation does not raise (all earlier ones having raised), sleeps
`0.1 * 2 ^ k` seconds after the `k`-th failed attempt for every attempt
except the last, and returns `False` exactly when all attempts raise. -/
theorem C7_publish_with_retry (outcomes : Nat → Bool) (maxAttempts : Nat) :
    getMaxPublishFailures none = 3 ∧
    (publishWithRetry outcomes maxAttempts).attemptsMade ≤ maxAttempts ∧
    ((publishWithRetry outcomes maxAttempts).success = true ↔
      ∃ i, i < maxAttempts ∧ outcomes i = true) ∧
    ((publishWithRetry outcomes maxAttempts).success = true →
      outcomes ((publishWithRetry outcomes maxAttempts).attemptsMade - 1) = true ∧
      ∀ i < (publishWithRetry outcomes maxAttempts).attemptsMade - 1,
        outcomes i = false) ∧
    ((publishWithRetry outcomes maxAttempts).success = false →
      (publishWithRetry outcomes maxAttempts).attemptsMade = maxAttempts) ∧
    (publishWithRetry outcomes maxAttempts).sleeps =
      (List.range ((publishWithRetry outcomes maxAttempts).attemptsMade - 1)).map
        (fun i => ((1 : ℚ) / 10) * 2 ^ i) := by
  refine ⟨rfl, publishGo_attempts_le outcomes maxAttempts 0, ?_, ?_, ?_, ?_⟩
  · have h := publishGo_success_iff outcomes maxAttempts 0
    simpa [publishWithRetry] using h
  · intro h
    have hf := publishGo_success_first outcomes maxAttempts 0 h
    simpa [publishWithRetry] using hf
  · exact publishGo_failure_attempts outcomes maxAttempts 0
  · have h := publishGo_sleeps outcomes maxAttempts 0
    simpa [publishWithRetry] using h

/-- Witness for C7: with failures at attempts 0 and successes from attempt
1 on, the loop returns true after 2 calls and slept once for 0.1 s. -/
theorem C7_publish_with_retry_witness :
    (publishWithRetry (fun k => 1 ≤ k) 3).success = true ∧
    (publishWithRetry (fun k => 1 ≤ k) 3).attemptsMade = 2 ∧
    (publishWithRetry (fun k => 1 ≤ k) 3).sleeps = [((1 : ℚ) / 10)] := by
  have h := C7_publish_with_retry (fun k => 1 ≤ k) 3
  refine ⟨(h.2.2.1).mpr ⟨1, by decide, by decide⟩, by decide, ?_⟩
  norm_num [publishWithRetry, publishGo]

/-- C2: With the breaker enabled, from CLOSED the configured number of
consecutive `record_failure` calls opens the breaker; while OPEN and before
`recovery_timeout` has elapsed, `call` rejects with `CircuitBreakerError`
without invoking the wrapped function; once `recovery_timeout` has elapsed
since opening, any state read transitions OPEN to HALF_OPEN; that many
consecutive `record_success` calls as `half_open_requests` close it; a
single `record_failure` while HALF_OPEN reopens it. -/
theorem C2_circuit_breaker_lifecycle (cfg : CBConfig) (hEn : cfg.enabled = true) :
    (∀ (now : Int) (s : CBState), s.state = .closed → s.failureCount = 0 →
      1 ≤ cfg.failureThreshold →
      ((recordFailure cfg now)^[cfg.failureThreshold] s).state = .opened) ∧
    (∀ (E R : Type) (now t0 : Int) (s : CBState) (fn : ExecEnd E R),
      s.state = .opened → s.openedAt = some t0 → now - t0 < cfg.recoveryTimeout →
      (circuitCall cfg now s fn).1 = .rejected .opened) ∧
    (∀ (now t0 : Int) (s : CBState),
      s.state = .opened → s.openedAt = some t0 → cfg.recoveryTimeout ≤ now - t0 →
      checkStateTransition cfg now s = { s with state := .halfOpen, successCount := 0 }) ∧
    (∀ (s : CBState), s.state = .halfOpen → s.successCount = 0 →
      1 ≤ cfg.halfOpenRequests →
      ((recordSuccess cfg)^[cfg.halfOpenRequests] s).state = .closed) ∧
    (∀ (now : Int) (s : CBState), s.state = .halfOpen →
      (recordFailure cfg now s).state = .opened ∧
      (recordFailure cfg now s).openedAt = some now) := by
  refine ⟨?_, ?_, ?_, ?_, ?_⟩
  · intro now s hs hc hth
    exact iter_recordFailure_opens cfg hEn now cfg.failureThreshold s hth hs (by omega)
  · intro E R now t0 s fn hs hoa hlt
    obtain ⟨st, fc, sc, lf, oa⟩ := s
    cases hs
    cases hoa
    simp [circuitCall, allowRequest, checkStateTransition, hEn, hlt.not_le]
  · intro now t0 s hs hoa hge
    obtain ⟨st, fc, sc, lf, oa⟩ := s
    cases hs
    cases hoa
    simp [checkStateTransition, hge]
  · intro s hs hc hho
    exact iter_recordSuccess_closes cfg hEn cfg.halfOpenRequests s hho hs (by omega)
  · intro now s hs
    rw [recordFailure_halfOpen_eq cfg hEn now s hs]
    exact ⟨rfl, rfl⟩

/-- Witness for C2 with threshold 2, recovery timeout 30 and 2 half-open
requests, exercising every transition of the lifecycle. -/
theorem C2_circuit_breaker_lifecycle_witness :
    ((recordFailure cfgW 0)^[2] CBState.initial).state = .opened ∧
    (circuitCall cfgW 10 ⟨.opened, 2, 0, some 0, some 0⟩
        (ExecEnd.normal 1 : ExecEnd Unit Nat)).1 = .rejected .opened ∧
    checkStateTransition cfgW 30 ⟨.opened, 2, 0, some 0, some 0⟩
      = ⟨.halfOpen, 2, 0, some 0, some 0⟩ ∧
    ((recordSuccess cfgW)^[2] ⟨.halfOpen, 2, 0, some 0, some 0⟩).state = .closed ∧
    (recordFailure cfgW 40 ⟨.halfOpen, 2, 0, some 0, some 0⟩).state = .opened := by
  have h := C2_circuit_breaker_lifecycle cfgW rfl
  refine ⟨h.1 0 CBState.initial rfl rfl (by decide),
    h.2.1 Unit Nat 10 0 ⟨.opened, 2, 0, some 0, some 0⟩ _ rfl rfl (by decide),
    h.2.2.1 30 0 ⟨.opened, 2, 0, some 0, some 0⟩ rfl rfl (by decide),
    h.2.2.2.1 ⟨.halfOpen, 2, 0, some 0, some 0⟩ rfl rfl (by decide),
    (h.2.2.2.2 40 ⟨.halfOpen, 2, 0, some 0, some 0⟩ rfl).1⟩

/-- When every gate up to the registry lookup passes but the row lock is
denied, the handler answers 409 without entering the `try` block. -/
theorem workflowWebhook_lock_denied {V : Type} (env : WebhookEnv V)
    (hSig : env.sigValid = true)
    (hSize : env.payloadSize ≤ env.maxPayloadSize)
    (hParse : env.parseOk = true)
    (hWf : env.payloadWorkflowId = some env.urlWorkflowId)
    (hWfNe : env.urlWorkflowId ≠ "")
    (hRun : optStrTruthy env.runId = true)
    (hShut : env.shuttingDown = false)
    (hFound : env.workflowFound = true)
    (hAcq : acquireWorkflowLock env.persistEnabled env.lockRow = false) :
    workflowWebhook env =
      ⟨⟨409, .lockContention⟩,
        { (noEffects : Effects V) with collisionLogged := collisionLoggedB env }⟩ := by
  have hSize' : ¬ (env.maxPayloadSize < env.payloadSize) := not_lt.mpr hSize
  have hb : (env.urlWorkflowId == "") = false := by simp [hWfNe]
  have hBad : wfIdBad env = false := by
    rw [wfIdBad, hWf]
    simp [hb]
  rw [workflowWebhook, if_neg (by simp [hSig]), if_neg hSize', if_neg (by simp [hParse])]
  rw [if_neg (by simp [hBad]), if_neg (by simp [hRun]), if_neg (by simp [hShut])]
  rw [if_neg (by simp [hFound]), if_pos (by simp [hAcq])]

/-- C1: for every inbound invocation with persistence enabled and a truthy
`run_id` that reaches execution, the completed-steps map handed to
`workflow.execute` is `{**db_steps, **payload_steps}` — the payload's
value wins for every step id present in both — and a collision produces
only the idempotency log entry, never a different response: the invocation
behaves like a collision-free one carrying the already-merged map. -/
theorem C1_completed_steps_merge {V : Type} (env : WebhookEnv V)
    (hSig : env.sigValid = true)
    (hSize : env.payloadSize ≤ env.maxPayloadSize)
    (hParse : env.parseOk = true)
    (hWf : env.payloadWorkflowId = some env.urlWorkflowId)
    (hWfNe : env.urlWorkflowId ≠ "")
    (hRun : optStrTruthy env.runId = true)
    (hShut : env.shuttingDown = false)
    (hFound : env.workflowFound = true)
    (hLock : acquireWorkflowLock env.persistEnabled env.lockRow = true)
    (hPersist : env.persistEnabled = true) :
    (workflowWebhook env).eff.executed = true ∧
    (workflowWebhook env).eff.stepsForExecute = pyDictMerge env.dbSteps env.payloadSteps ∧
    (∀ k, lookupD (workflowWebhook env).eff.stepsForExecute k
      = Option.orElse (lookupD env.payloadSteps k) (fun _ => lookupD env.dbSteps k)) ∧
    (duplicateSteps env.dbSteps env.payloadSteps ≠ [] →
      (workflowWebhook env).eff.collisionLogged = true) ∧
    (workflowWebhook env).resp =
      (workflowWebhook
        { env with
            dbSteps := ([] : List (String × V))
            payloadSteps := pyDictMerge env.dbSteps env.payloadSteps }).resp := by
  have hreach := workflowWebhook_reaches env hSig hSize hParse hWf hWfNe hRun hShut hFound hLock
  have heff := dispatchExec_eff_exec env
  have hms : mergedSteps env = pyDictMerge env.dbSteps env.payloadSteps := by
    simp [mergedSteps, hPersist, hRun]
  refine ⟨?_, ?_, ?_, ?_, ?_⟩
  · rw [hreach]
    exact heff.1
  · rw [hreach, heff.2.1, hms]
  · intro k
    rw [hreach, heff.2.1, hms, lookupD_pyDictMerge]
  · intro hdup
    have hdb : env.dbSteps ≠ [] := by
      intro hnil
      apply hdup
      rw [duplicateSteps, hnil]
      rfl
    have h1 : env.dbSteps.isEmpty = false := by
      simpa using hdb
    have h2 : (duplicateSteps env.dbSteps env.payloadSteps).isEmpty = false := by
      simpa using hdup
    rw [hreach, heff.2.2]
    simp [collisionLoggedB, hPersist, hRun, h1, h2]
  · have hreach' := workflowWebhook_reaches
      { env with
          dbSteps := ([] : List (String × V))
          payloadSteps := pyDictMerge env.dbSteps env.payloadSteps }
      hSig hSize hParse hWf hWfNe hRun hShut hFound hLock
    rw [hreach, hreach']
    exact (dispatchExec_resp_congr env
      { env with
          dbSteps := ([] : List (String × V))
          payloadSteps := pyDictMerge env.dbSteps env.payloadSteps }
      rfl rfl rfl rfl rfl).symm

/-- Witness for C1 at the baseline invocation with db map `{a: 1}` and
payload map `{a: 2, b: 3}`: the map handed to execution is `{a: 2, b: 3}`
and the collision on `a` is logged. -/
theorem C1_completed_steps_merge_witness :
    (workflowWebhook sampleEnv).eff.stepsForExecute = [("a", 2), ("b", 3)] ∧
    (workflowWebhook sampleEnv).eff.collisionLogged = true := by
  have h := C1_completed_steps_merge sampleEnv rfl (by decide) rfl rfl (by decide)
    (by decide) rfl rfl rfl rfl
  refine ⟨?_, h.2.2.2.1 (by decide)⟩
  rw [h.2.1]
  decide

/-- C3 as stated is false on the code: for this concrete invocation whose
workflow raises an unexpected error (not `WorkflowError`, not
`StepCompleted`, not `ExecutionTimeoutError`), the `except Exception`
branch writes no DeadLetterEntry. -/
theorem C3_counterexample :
    (workflowWebhook { sampleEnv with exec := .unexpected }).eff.dlqWritten = false := by
  decide

/-- C3 amended: for every unexpected error the handler marks the run
failed and answers 500, without writing a DeadLetterEntry, without
scheduling a retry and without touching the retry counter. -/
theorem C3_unexpected_error_no_dlq {V : Type} (env : WebhookEnv V)
    (hSig : env.sigValid = true)
    (hSize : env.payloadSize ≤ env.maxPayloadSize)
    (hParse : env.parseOk = true)
    (hWf : env.payloadWorkflowId = some env.urlWorkflowId)
    (hWfNe : env.urlWorkflowId ≠ "")
    (hRun : optStrTruthy env.runId = true)
    (hShut : env.shuttingDown = false)
    (hFound : env.workflowFound = true)
    (hLock : acquireWorkflowLock env.persistEnabled env.lockRow = true)
    (hPersist : env.persistEnabled = true)
    (hExec : env.exec = .unexpected) :
    (workflowWebhook env).eff.markFailed = true ∧
    (workflowWebhook env).eff.dlqWritten = false ∧
    (workflowWebhook env).eff.retryIncremented = false ∧
    (workflowWebhook env).eff.retryReset = false ∧
    (workflowWebhook env).eff.publishes = [] ∧
    (workflowWebhook env).eff.shouldRetryConsulted = false ∧
    (workflowWebhook env).resp = ⟨500, .internalError⟩ := by
  rw [workflowWebhook_reaches env hSig hSize hParse hWf hWfNe hRun hShut hFound hLock,
    dispatchExec_unexpected env hExec]
  simp [effAtExec, noEffects, hPersist]

/-- Witness for C3's amended statement at the concrete unexpected-error
invocation. -/
theorem C3_unexpected_error_no_dlq_witness :
    (workflowWebhook { sampleEnv with exec := .unexpected }).eff.markFailed = true ∧
    (workflowWebhook { sampleEnv with exec := .unexpected }).eff.retryIncremented = false := by
  have h := C3_unexpected_error_no_dlq { sampleEnv with exec := .unexpected }
    rfl (by decide) rfl rfl (by decide) (by decide) rfl rfl rfl rfl rfl
  exact ⟨h.1, h.2.2.1⟩

/-- C5: a missing `WorkflowRun` row is treated as lock-acquired; a row
locked by another transaction makes the handler answer 409 immediately,
without executing the workflow, without touching the retry-attempt
counter, and without writing a dead-letter entry. -/
theorem C5_lock_contention {V : Type} :
    (∀ persistEnabled : Bool, acquireWorkflowLock persistEnabled .missing = true) ∧
    (∀ env : WebhookEnv V,
      env.sigValid = true → env.payloadSize ≤ env.maxPayloadSize →
      env.parseOk = true → env.payloadWorkflowId = some env.urlWorkflowId →
      env.urlWorkflowId ≠ "" → optStrTruthy env.runId = true →
      env.shuttingDown = false → env.workflowFound = true →
      env.persistEnabled = true → env.lockRow = .heldByOther →
      (workflowWebhook env).resp = ⟨409, .lockContention⟩ ∧
      (workflowWebhook env).eff.executed = false ∧
      (workflowWebhook env).eff.retryIncremented = false ∧
      (workflowWebhook env).eff.retryReset = false ∧
      (workflowWebhook env).eff.dlqWritten = false ∧
      (workflowWebhook env).eff.markFailed = false ∧
      (workflowWebhook env).eff.publishes = []) := by
  constructor
  · intro persistEnabled
    cases persistEnabled <;> rfl
  · intro env hSig hSize hParse hWf hWfNe hRun hShut hFound hPersist hRow
    have hAcq : acquireWorkflowLock env.persistEnabled env.lockRow = false := by
      rw [hPersist, hRow]
      rfl
    rw [workflowWebhook_lock_denied env hSig hSize hParse hWf hWfNe hRun hShut hFound hAcq]
    simp [noEffects]

/-- Witness for C5: the baseline invocation with the row lock held
elsewhere is rejected with 409 and no workflow execution. -/
theorem C5_lock_contention_witness :
    (workflowWebhook { sampleEnv with lockRow := .heldByOther }).resp
      = ⟨409, .lockContention⟩ ∧
    (workflowWebhook { sampleEnv with lockRow := .heldByOther }).eff.executed = false := by
  have h := (C5_lock_contention (V := Nat)).2 { sampleEnv with lockRow := .heldByOther }
    rfl (by decide) rfl rfl (by decide) (by decide) rfl rfl rfl rfl
  exact ⟨h.1, h.2.1⟩

/-- C6: whenever execution exits with `StepCompleted`, the handler resets
the retry counter, persists the step, and invokes the publish path with no
delay and a fresh attempt count, without consulting `should_retry`; with a
working publish path it answers 200 `step_completed`. -/
theorem C6_step_completed_path {V : Type} (env : WebhookEnv V)
    (hSig : env.sigValid = true)
    (hSize : env.payloadSize ≤ env.maxPayloadSize)
    (hParse : env.parseOk = true)
    (hWf : env.payloadWorkflowId = some env.urlWorkflowId)
    (hWfNe : env.urlWorkflowId ≠ "")
    (hRun : optStrTruthy env.runId = true)
    (hShut : env.shuttingDown = false)
    (hFound : env.workflowFound = true)
    (hLock : acquireWorkflowLock env.persistEnabled env.lockRow = true)
    (hPersist : env.persistEnabled = true)
    (sid : String) (r : V) (cs : List (String × V))
    (hExec : env.exec = .stepCompleted sid r cs) :
    (workflowWebhook env).eff.retryReset = true ∧
    (workflowWebhook env).eff.stepPersisted = some (sid, r) ∧
    (workflowWebhook env).eff.publishes = [⟨cs, none, 0⟩] ∧
    (workflowWebhook env).eff.shouldRetryConsulted = false ∧
    (env.publishOk = true → (workflowWebhook env).resp = ⟨200, .stepCompleted⟩) := by
  rw [workflowWebhook_reaches env hSig hSize hParse hWf hWfNe hRun hShut hFound hLock]
  unfold dispatchExec
  rw [hExec]
  cases hpub : env.publishOk <;> simp [hpub, effAtExec, noEffects, hPersist]

/-- Witness for C6 at a concrete step completion `s1` with result 7. -/
theorem C6_step_completed_path_witness :
    (workflowWebhook { sampleEnv with exec := .stepCompleted "s1" 7 [("s1", 7)] }).eff.retryReset
      = true ∧
    (workflowWebhook { sampleEnv with exec := .stepCompleted "s1" 7 [("s1", 7)] }).eff.publishes
      = [⟨[("s1", 7)], none, 0⟩] ∧
    (workflowWebhook { sampleEnv with exec := .stepCompleted "s1" 7 [("s1", 7)] }).resp
      = ⟨200, .stepCompleted⟩ := by
  have h := C6_step_completed_path { sampleEnv with exec := .stepCompleted "s1" 7 [("s1", 7)] }
    rfl (by decide) rfl rfl (by decide) (by decide) rfl rfl rfl rfl "s1" 7 [("s1", 7)] rfl
  exact ⟨h.1, h.2.2.1, h.2.2.2.2 rfl⟩

/-- C9: when the wrapped call exits by raising — including `StepCompleted`
— the guard re-raises that exception and never raises
`ExecutionTimeoutError`, even when the deadline elapsed; a step completing
after the deadline is therefore reported as `step_completed`, not as a
timeout. -/
theorem C9_raise_bypasses_timeout_check {V : Type} :
    (∀ (t elapsed : Nat) (wf run : String) (e : WorkflowExc V),
      executionTimeout t wf run elapsed
          (ExecEnd.raised e : ExecEnd (WorkflowExc V) V)
        = .raised e) ∧
    (∀ (env : WebhookEnv V) (t elapsed : Nat) (wf run sid : String) (r : V)
        (cs : List (String × V)),
      env.exec = execOutcomeOfGuard
        (executionTimeout t wf run elapsed
          (ExecEnd.raised (WorkflowExc.stepCompleted sid r cs))) →
      env.sigValid = true → env.payloadSize ≤ env.maxPayloadSize →
      env.parseOk = true → env.payloadWorkflowId = some env.urlWorkflowId →
      env.urlWorkflowId ≠ "" → optStrTruthy env.runId = true →
      env.shuttingDown = false → env.workflowFound = true →
      acquireWorkflowLock env.persistEnabled env.lockRow = true →
      env.publishOk = true →
      (workflowWebhook env).resp = ⟨200, .stepCompleted⟩) := by
  constructor
  · intro t elapsed wf run e
    rfl
  · intro env t elapsed wf run sid r cs hExec hSig hSize hParse hWf hWfNe hRun hShut
      hFound hLock hPub
    have hExec' : env.exec = .stepCompleted sid r cs := hExec
    rw [workflowWebhook_reaches env hSig hSize hParse hWf hWfNe hRun hShut hFound hLock,
      dispatchExec_stepCompleted env sid r cs hExec' hPub]

/-- Witness for C9: a step that completes 5 s into a 3 s deadline is still
reported as `step_completed`. -/
theorem C9_raise_bypasses_timeout_check_witness :
    executionTimeout 3 "wf" "run-1" 5
        (ExecEnd.raised (WorkflowExc.stepCompleted "s1" (7 : Nat) [("s1", 7)])
          : ExecEnd (WorkflowExc Nat) Nat)
      = .raised (WorkflowExc.stepCompleted "s1" 7 [("s1", 7)]) ∧
    (workflowWebhook
        { sampleEnv with exec := .stepCompleted "s1" 7 [("s1", 7)] }).resp
      = ⟨200, .stepCompleted⟩ := by
  have h := C9_raise_bypasses_timeout_check (V := Nat)
  refine ⟨h.1 3 5 "wf" "run-1" _, ?_⟩
  exact h.2 { sampleEnv with exec := .stepCompleted "s1" 7 [("s1", 7)] } 3 5 "wf" "run-1"
    "s1" 7 [("s1", 7)] rfl rfl (by decide) rfl rfl (by decide) (by decide) rfl rfl rfl rfl

end DjangoHookflow
